import Mathlib

/-!
Verification of `quantecon/models/solow/impulse_response.py`.

The Python class `ImpulseResponse` is embedded shallowly: the mutable
`model.params` dictionary is threaded explicitly as a value of type `Dict`
(an association list with Python-dict lookup semantics), the injected
`Model` collaborator (steady-state solver, evaluation functions, IVP
integrator) is a record of deterministic functions of the current
parameter dictionary, and every operation that can raise in Python
returns `Except Err _`.  Machine floats are modelled by `ℝ`.
-/

namespace Solow

/-- A Python dictionary mapping parameter names to numbers, modelled as an
association list; `dict_lookup` gives the mapping semantics. -/
abbrev Dict := List (String × ℝ)

/-- Python `d[k]` as an `Option`. -/
def dict_lookup (d : Dict) (k : String) : Option ℝ :=
  List.lookup k d

/-- The key list `d.keys()` (only membership is ever used). -/
def dict_keys (d : Dict) : List String :=
  d.map Prod.fst

/-- Python `d.update(e)`: every key of `e` takes `e`'s value, all other keys keep
`d`'s value (new keys of `e` are added).  With lookup-on-append semantics
this is exactly `e ++ d`. -/
def dict_update (d e : Dict) : Dict :=
  e ++ d

/-- Two dictionaries are equivalent when they agree key for key (Python
`==` on dicts, for dicts over the same key set). -/
def dict_eqv (d e : Dict) : Prop :=
  ∀ k, dict_lookup d k = dict_lookup e k

/-- The exceptions the Python code can raise. -/
inductive Err where
  /-- Python `KeyError` from `params[...]` on a missing key. -/
  | keyError : Err
  /-- Python `AttributeError` raised by the two validators. -/
  | attributeError : Err
  /-- An error propagating out of `ivp.solve`. -/
  | integrationError : Err
  /-- Numpy `ValueError`/`IndexError` from a shape mismatch or from
  indexing `[-1]` into an empty array. -/
  | valueError : Err
deriving DecidableEq

/-- Subscripting `params[k]`, raising `KeyError` when the key is absent. -/
def getItem (d : Dict) (k : String) : Except Err ℝ :=
  match dict_lookup d k with
  | some v => Except.ok v
  | none => Except.error Err.keyError

/-- The injected `Model` collaborator: `steady_state` and the three
evaluation functions are deterministic functions of the current parameter
dictionary; `ivp_solve params t0 y0 h T` returns the integrated rows
`(time, state)` or an integration error. -/
structure Model where
  steady_state : Dict → ℝ
  evaluate_intensive_output : Dict → ℝ → ℝ
  evaluate_consumption : Dict → ℝ → ℝ
  evaluate_actual_investment : Dict → ℝ → ℝ
  ivp_solve : Dict → ℝ → ℝ → ℝ → ℕ → Except Err (List (ℝ × ℝ))

/-- One row of the impulse-response table: the columns
`(time, capital, output, consumption, investment)`. -/
@[ext]
structure Row where
  time : ℝ
  capital : ℝ
  output : ℝ
  consumption : ℝ
  investment : ℝ

/-- A scaled `(capital, output, consumption, investment)` quadruple. -/
abbrev Quad := ℝ × ℝ × ℝ × ℝ

noncomputable section

/-- Property `ImpulseResponse._padding_time`: `np.linspace(-N, -1, N)`, i.e. the
`N` evenly spaced values `-N, -N+1, …, -1` (step `(N-1)/(N-1) = 1`). -/
def padding_time (N : ℕ) : List ℝ :=
  (List.range N).map fun i : ℕ => -(N : ℝ) + (i : ℝ)

/-- Property `ImpulseResponse._padding_scaling_factor`: extracts `A0, L0, g, n`
from the current params (raising `KeyError` if absent, whatever the kind),
then dispatches on `kind`. -/
def padding_scaling_factor (p : Dict) (kind : String) (N : ℕ) :
    Except Err (List ℝ) := do
  let A0 ← getItem p "A0"
  let L0 ← getItem p "L0"
  let g ← getItem p "g"
  let n ← getItem p "n"
  if kind = "per_capita" then
    pure ((padding_time N).map fun t => A0 * Real.exp (g * t))
  else if kind = "levels" then
    pure ((padding_time N).map fun t => A0 * L0 * Real.exp ((g + n) * t))
  else
    pure (List.replicate N 1)

/-- Property `ImpulseResponse._padding_variables`: the steady-state quadruple under
the current params, broadcast-multiplied by the padding scaling factor. -/
def padding_variables (m : Model) (p : Dict) (kind : String) (N : ℕ) :
    Except Err (List Quad) := do
  let k0 := m.steady_state p
  let y0 := m.evaluate_intensive_output p k0
  let c0 := m.evaluate_consumption p k0
  let i0 := m.evaluate_actual_investment p k0
  let factor ← padding_scaling_factor p kind N
  pure (factor.map fun f => (f * k0, f * y0, f * c0, f * i0))

/-- Property `ImpulseResponse._padding`: `np.hstack((padding_time, padding_variables))`
as a list of table rows. -/
def padding_block (m : Model) (p : Dict) (kind : String) (N : ℕ) :
    Except Err (List Row) := do
  let vars ← padding_variables m p kind N
  pure (((padding_time N).zip vars).map fun tv =>
    ⟨tv.1, tv.2.1, tv.2.2.1, tv.2.2.2.1, tv.2.2.2.2⟩)

/-- Property `ImpulseResponse._response_time`: `np.linspace(0, T, T+1)`, i.e.
`0, 1, …, T`. -/
def response_time (T : ℕ) : List ℝ :=
  (List.range (T + 1)).map fun i : ℕ => (i : ℝ)

/-- Property `ImpulseResponse._response_scaling_factor`: extracts `g, n` from the
current params, and in the `per_capita`/`levels` branches anchors the
factor at `_padding_scaling_factor[-1]` (the last padding factor, raising
`IndexError` — modelled as `Err.valueError` — when the padding is empty). -/
def response_scaling_factor (p : Dict) (kind : String) (N T : ℕ) :
    Except Err (List ℝ) := do
  let g ← getItem p "g"
  let n ← getItem p "n"
  if kind = "per_capita" then do
    let pf ← padding_scaling_factor p kind N
    match pf.getLast? with
    | some anchor =>
        pure ((response_time T).map fun t => anchor * Real.exp (g * t))
    | none => Except.error Err.valueError
  else if kind = "levels" then do
    let pf ← padding_scaling_factor p kind N
    match pf.getLast? with
    | some anchor =>
        pure ((response_time T).map fun t => anchor * Real.exp ((g + n) * t))
    | none => Except.error Err.valueError
  else
    pure (List.replicate (T + 1) 1)

/-- Property `ImpulseResponse._response_variables`: reads the steady state under the
pre-impulse params, merges the impulse into the params (the mutation),
integrates, evaluates the three derived series under the post-impulse
params and multiplies by the response scaling factor (also computed under
the post-impulse params).  Returns the result together with the params as
left by this step.  The broadcast of the `(T+1, 1)` factor against the
solution matrix requires the solver to return exactly `T+1` rows; any
other row count is a numpy shape error. -/
def response_variables (m : Model) (p : Dict) (impulse : Dict)
    (kind : String) (N T : ℕ) : Except Err (List Quad) × Dict :=
  let k0 := m.steady_state p
  let p' := dict_update p impulse
  match m.ivp_solve p' 0 k0 1 T with
  | Except.error e => (Except.error e, p')
  | Except.ok soln =>
    let k := soln.map Prod.snd
    let y := k.map (m.evaluate_intensive_output p')
    let c := k.map (m.evaluate_consumption p')
    let i := k.map (m.evaluate_actual_investment p')
    match response_scaling_factor p' kind N T with
    | Except.error e => (Except.error e, p')
    | Except.ok factor =>
      if k.length = T + 1 then
        (Except.ok (List.zipWith (fun f q => (f * q.1, f * q.2.1, f * q.2.2.1,
            f * q.2.2.2)) factor
          (List.zipWith (fun a bcd => (a, bcd)) k
            (List.zipWith (fun b cd => (b, cd)) y (List.zip c i)))), p')
      else (Except.error Err.valueError, p')

/-- Property `ImpulseResponse._response`: `np.hstack((response_time, response_variables))`
as a list of table rows, threading the params mutation. -/
def response_block (m : Model) (p : Dict) (impulse : Dict)
    (kind : String) (N T : ℕ) : Except Err (List Row) × Dict :=
  match response_variables m p impulse kind N T with
  | (Except.error e, p') => (Except.error e, p')
  | (Except.ok vars, p') =>
    (Except.ok (((response_time T).zip vars).map fun tv =>
      ⟨tv.1, tv.2.1, tv.2.2.1, tv.2.2.2.1, tv.2.2.2.2⟩), p')

/-- Property `ImpulseResponse.impulse_response`: snapshot `orig_params`, build
`np.vstack((self._padding, self._response))` (padding first, then the
response — the step that mutates the params), then on the normal path
restore the params with `params.update(orig_params)` and return the table.
An exception propagates out of the `vstack` before the restoring `update`
line runs, so the params are returned exactly as the failing step left
them. -/
def impulse_response (m : Model) (p : Dict) (impulse : Dict)
    (kind : String) (N T : ℕ) : Except Err (List Row) × Dict :=
  match padding_block m p kind N with
  | Except.error e => (Except.error e, p)
  | Except.ok padRows =>
    match response_block m p impulse kind N T with
    | (Except.error e, p') => (Except.error e, p')
    | (Except.ok respRows, p') =>
      (Except.ok (padRows ++ respRows), dict_update p' p)

end

/-- The argument passed to the `impulse` setter: a Python object that is
either a `dict` or something of another type. -/
inductive ImpulseInput where
  | dict : Dict → ImpulseInput
  | nonDict : ImpulseInput

/-- The argument passed to the `kind` setter: a Python object that is
either a string (`str`/`unicode`) or something of another type. -/
inductive KindInput where
  | str : String → KindInput
  | nonStr : KindInput

/-- Method `ImpulseResponse._validate_impulse`: `AttributeError` unless the value
is a dict whose key set is a subset of the model's parameter keys. -/
def validate_impulse (modelParams : Dict) : ImpulseInput → Except Err Dict
  | ImpulseInput.nonDict => Except.error Err.attributeError
  | ImpulseInput.dict d =>
    if (dict_keys d).all (fun k => k ∈ dict_keys modelParams) then
      Except.ok d
    else Except.error Err.attributeError

/-- The list `valid_kinds` from `ImpulseResponse._validate_kind`. -/
def valid_kinds : List String :=
  ["levels", "per_capita", "efficiency_units"]

/-- Method `ImpulseResponse._validate_kind`: `AttributeError` unless the value is
a string belonging to `valid_kinds`. -/
def validate_kind : KindInput → Except Err String
  | KindInput.nonStr => Except.error Err.attributeError
  | KindInput.str s =>
    if s ∈ valid_kinds then Except.ok s else Except.error Err.attributeError

/-- The attribute state of an `ImpulseResponse` instance: the model's
parameter dictionary and the `_impulse` and `_kind` attributes (absent
until first assigned). -/
structure IRState where
  params : Dict
  impulse : Option Dict
  kind : Option String

/-- The `impulse` setter: assigns `_impulse` to the validated value; a
validation failure raises before any attribute or model state changes. -/
def set_impulse (st : IRState) (v : ImpulseInput) : Except Err Unit × IRState :=
  match validate_impulse st.params v with
  | Except.ok d => (Except.ok (), { st with impulse := some d })
  | Except.error e => (Except.error e, st)

/-- The `kind` setter: assigns `_kind` to the validated value; a validation
failure raises before any attribute or model state changes. -/
def set_kind (st : IRState) (v : KindInput) : Except Err Unit × IRState :=
  match validate_kind v with
  | Except.ok s => (Except.ok (), { st with kind := some s })
  | Except.error e => (Except.error e, st)

/-- The `kind` getter. -/
def get_kind (st : IRState) : Option String :=
  st.kind

/-- The `impulse` getter. -/
def get_impulse (st : IRState) : Option Dict :=
  st.impulse

end Solow

namespace Solow

noncomputable section

/-- Accessor for row `i` of a build result (`none` when the build raised
or the index is out of range). -/
def table_row (r : Except Err (List Row)) (i : ℕ) : Option Row :=
  match r with
  | Except.ok tbl => tbl[i]?
  | Except.error _ => none

/-- The response rows produced by a successful build, written out as a
function of the post-impulse parameter dictionary `p'` (under which the
three evaluation functions and the response scaling factor `rf` are
computed) and the solver output `soln`.  This names the second half of
`response_block`'s success value for use in theorem statements. -/
def response_rows (m : Model) (p' : Dict) (soln : List (ℝ × ℝ))
    (rf : List ℝ) (T : ℕ) : List Row :=
  let k := soln.map Prod.snd
  let y := k.map (m.evaluate_intensive_output p')
  let c := k.map (m.evaluate_consumption p')
  let i := k.map (m.evaluate_actual_investment p')
  ((response_time T).zip
    (List.zipWith (fun f q => (f * q.1, f * q.2.1, f * q.2.2.1, f * q.2.2.2)) rf
      (List.zipWith (fun a bcd => (a, bcd)) k
        (List.zipWith (fun b cd => (b, cd)) y (List.zip c i))))).map fun tv =>
    ⟨tv.1, tv.2.1, tv.2.2.1, tv.2.2.2.1, tv.2.2.2.2⟩

/-- A model respects dictionary equivalence when each injected function
reads the parameter dictionary only through its keys, as the Python model
does: key-for-key equal dictionaries give identical outputs. -/
def Model.Respects (m : Model) : Prop :=
  ∀ p q : Dict, dict_eqv p q →
    m.steady_state p = m.steady_state q ∧
    (∀ k, m.evaluate_intensive_output p k = m.evaluate_intensive_output q k) ∧
    (∀ k, m.evaluate_consumption p k = m.evaluate_consumption q k) ∧
    (∀ k, m.evaluate_actual_investment p k = m.evaluate_actual_investment q k) ∧
    (∀ t0 y0 h T, m.ivp_solve p t0 y0 h T = m.ivp_solve q t0 y0 h T)

/-- A concrete parameter dictionary used to instantiate the theorems:
`A0 = 1`, `L0 = 1`, `g = 1`, `n = 0`. -/
def exParams : Dict := [("A0", 1), ("L0", 1), ("g", 1), ("n", 0)]

/-- A concrete model whose solver succeeds, holding the state constant at
the initial value: steady state `1`, identity evaluation functions, and a
solver returning the `T+1` rows `(i, y0)` for `i = 0, …, T`. -/
def okModel : Model where
  steady_state := fun _ => 1
  evaluate_intensive_output := fun _ k => k
  evaluate_consumption := fun _ k => k
  evaluate_actual_investment := fun _ k => k
  ivp_solve := fun _ _ y0 _ T =>
    Except.ok ((List.range (T + 1)).map fun i : ℕ => ((i : ℝ), y0))

/-- The padding block of `okModel` on `exParams` under `per_capita`, used
to instantiate theorems at a concrete input. -/
def exPadRows : List Row :=
  (padding_block okModel exParams "per_capita" 10).toOption.getD []

/-- The response scaling factor of the post-impulse params
`dict_update exParams [("g", 2)]` under `per_capita`, used to instantiate
theorems at a concrete input. -/
def exRf : List ℝ :=
  (response_scaling_factor (dict_update exParams [("g", 2)]) "per_capita"
    10 100).toOption.getD []

/-- The solver output of `okModel` for horizon `T = 100` and initial state
`1`: the rows `(i, 1)` for `i = 0, …, 100`. -/
def exSoln : List (ℝ × ℝ) :=
  (List.range 101).map fun i : ℕ => ((i : ℝ), 1)

/-- A concrete model identical to `okModel` except that its solver always
raises an integration error. -/
def failModel : Model where
  steady_state := fun _ => 1
  evaluate_intensive_output := fun _ k => k
  evaluate_consumption := fun _ k => k
  evaluate_actual_investment := fun _ k => k
  ivp_solve := fun _ _ _ _ _ => Except.error Err.integrationError

end

end Solow

namespace Solow

/-! ### Dictionary lemmas -/

theorem dict_lookup_append (d e : Dict) (k : String) :
    dict_lookup (e ++ d) k = Option.or (dict_lookup e k) (dict_lookup d k) := by
  induction e with
  | nil => simp [dict_lookup]
  | cons a e ih =>
    simp only [dict_lookup, List.cons_append, List.lookup] at *
    by_cases h : (k == a.1)
    · simp [h]
    · simp only [h]
      simpa [dict_lookup] using ih

theorem dict_lookup_update (d e : Dict) (k : String) :
    dict_lookup (dict_update d e) k = Option.or (dict_lookup e k) (dict_lookup d k) :=
  dict_lookup_append d e k

theorem dict_lookup_isSome_iff_mem_keys (d : Dict) (k : String) :
    (dict_lookup d k).isSome ↔ k ∈ dict_keys d := by
  induction d with
  | nil => simp [dict_lookup, dict_keys]
  | cons a d ih =>
    simp only [dict_lookup, List.lookup] at *
    by_cases h : k = a.1
    · simp [dict_keys, h]
    · have hb : (k == a.1) = false := beq_false_of_ne h
      simp [dict_keys, hb, h, ih]

/-- Restoring a snapshot: merging the snapshot `p` back over the mutated
dictionary `dict_update p imp` yields a dictionary agreeing with `p` key
for key, provided the impulse introduced no new keys. -/
theorem dict_restore_eqv (p imp : Dict)
    (hvalid : ∀ k, (dict_lookup imp k).isSome → (dict_lookup p k).isSome) :
    dict_eqv (dict_update (dict_update p imp) p) p := by
  intro k
  rw [dict_lookup_update, dict_lookup_update]
  cases hp : dict_lookup p k with
  | some v => simp [Option.or]
  | none =>
    have himp : dict_lookup imp k = none := by
      cases h : dict_lookup imp k with
      | none => rfl
      | some w =>
        have := hvalid k (by simp [h])
        simp [hp] at this
    simp [Option.or, himp]

/-! ### Time-vector lemmas -/

theorem padding_time_length (N : ℕ) : (padding_time N).length = N := by
  rw [padding_time, List.length_map, List.length_range]

theorem padding_time_getElem (N i : ℕ) (hi : i < N) :
    (padding_time N)[i]? = some (-(N : ℝ) + i) := by
  simp [padding_time, List.getElem?_range, hi]

theorem padding_time_getLast (N : ℕ) (hN : 0 < N) :
    (padding_time N).getLast? = some (-1) := by
  rw [List.getLast?_eq_getElem? (padding_time N), padding_time_length,
    padding_time_getElem N (N - 1) (by omega)]
  have : ((N - 1 : ℕ) : ℝ) = (N : ℝ) - 1 := by
    have : (1 : ℕ) ≤ N := hN
    push_cast [this]
    ring
  rw [this]
  ring_nf

theorem response_time_length (T : ℕ) : (response_time T).length = T + 1 := by
  rw [response_time, List.length_map, List.length_range]

theorem response_time_getElem (T i : ℕ) (hi : i ≤ T) :
    (response_time T)[i]? = some (i : ℝ) := by
  simp [response_time, List.getElem?_range, Nat.lt_succ_of_le hi]

/-! ### Scaling-factor rewriting lemmas -/

theorem padding_scaling_factor_per_capita (p : Dict) (A0 L0 g n : ℝ) (N : ℕ)
    (hA : dict_lookup p "A0" = some A0) (hL : dict_lookup p "L0" = some L0)
    (hg : dict_lookup p "g" = some g) (hn : dict_lookup p "n" = some n) :
    padding_scaling_factor p "per_capita" N =
      Except.ok ((padding_time N).map fun t => A0 * Real.exp (g * t)) := by
  simp [padding_scaling_factor, getItem, hA, hL, hg, hn, bind, Except.bind,
    pure, Except.pure]

theorem padding_scaling_factor_levels (p : Dict) (A0 L0 g n : ℝ) (N : ℕ)
    (hA : dict_lookup p "A0" = some A0) (hL : dict_lookup p "L0" = some L0)
    (hg : dict_lookup p "g" = some g) (hn : dict_lookup p "n" = some n) :
    padding_scaling_factor p "levels" N =
      Except.ok ((padding_time N).map fun t => A0 * L0 * Real.exp ((g + n) * t)) := by
  simp [padding_scaling_factor, getItem, hA, hL, hg, hn, bind, Except.bind,
    pure, Except.pure]

theorem padding_scaling_factor_efficiency (p : Dict) (A0 L0 g n : ℝ) (N : ℕ)
    (hA : dict_lookup p "A0" = some A0) (hL : dict_lookup p "L0" = some L0)
    (hg : dict_lookup p "g" = some g) (hn : dict_lookup p "n" = some n) :
    padding_scaling_factor p "efficiency_units" N =
      Except.ok (List.replicate N 1) := by
  simp [padding_scaling_factor, getItem, hA, hL, hg, hn, bind, Except.bind,
    pure, Except.pure]

theorem padding_scaling_factor_per_capita_getLast (p : Dict) (A0 L0 g n : ℝ)
    (N : ℕ) (hN : 0 < N)
    (hA : dict_lookup p "A0" = some A0) (hL : dict_lookup p "L0" = some L0)
    (hg : dict_lookup p "g" = some g) (hn : dict_lookup p "n" = some n) :
    (padding_scaling_factor p "per_capita" N).toOption.bind List.getLast? =
      some (A0 * Real.exp (g * (-1))) := by
  rw [padding_scaling_factor_per_capita p A0 L0 g n N hA hL hg hn]
  simp [Except.toOption, List.getLast?_map, padding_time_getLast N hN]

theorem padding_scaling_factor_levels_getLast (p : Dict) (A0 L0 g n : ℝ)
    (N : ℕ) (hN : 0 < N)
    (hA : dict_lookup p "A0" = some A0) (hL : dict_lookup p "L0" = some L0)
    (hg : dict_lookup p "g" = some g) (hn : dict_lookup p "n" = some n) :
    (padding_scaling_factor p "levels" N).toOption.bind List.getLast? =
      some (A0 * L0 * Real.exp ((g + n) * (-1))) := by
  rw [padding_scaling_factor_levels p A0 L0 g n N hA hL hg hn]
  simp [Except.toOption, List.getLast?_map, padding_time_getLast N hN]

end Solow

namespace Solow

theorem response_scaling_factor_per_capita (p : Dict) (A0 L0 g n : ℝ)
    (N T : ℕ) (hN : 0 < N)
    (hA : dict_lookup p "A0" = some A0) (hL : dict_lookup p "L0" = some L0)
    (hg : dict_lookup p "g" = some g) (hn : dict_lookup p "n" = some n) :
    response_scaling_factor p "per_capita" N T =
      Except.ok ((response_time T).map fun t =>
        A0 * Real.exp (g * (-1)) * Real.exp (g * t)) := by
  simp [response_scaling_factor, getItem, hg, hn, bind, Except.bind, pure,
    Except.pure, padding_scaling_factor_per_capita p A0 L0 g n N hA hL hg hn,
    List.getLast?_map, padding_time_getLast N hN]

theorem response_scaling_factor_levels (p : Dict) (A0 L0 g n : ℝ)
    (N T : ℕ) (hN : 0 < N)
    (hA : dict_lookup p "A0" = some A0) (hL : dict_lookup p "L0" = some L0)
    (hg : dict_lookup p "g" = some g) (hn : dict_lookup p "n" = some n) :
    response_scaling_factor p "levels" N T =
      Except.ok ((response_time T).map fun t =>
        A0 * L0 * Real.exp ((g + n) * (-1)) * Real.exp ((g + n) * t)) := by
  simp [response_scaling_factor, getItem, hg, hn, bind, Except.bind, pure,
    Except.pure, padding_scaling_factor_levels p A0 L0 g n N hA hL hg hn,
    List.getLast?_map, padding_time_getLast N hN]

theorem response_scaling_factor_efficiency (p : Dict) (g n : ℝ) (N T : ℕ)
    (hg : dict_lookup p "g" = some g) (hn : dict_lookup p "n" = some n) :
    response_scaling_factor p "efficiency_units" N T =
      Except.ok (List.replicate (T + 1) 1) := by
  simp [response_scaling_factor, getItem, hg, hn, bind, Except.bind, pure,
    Except.pure]

end Solow

namespace Solow

/-- C5: over the padding window, whose time vector consists of `N` points
evenly spaced from `-N` to `-1`, the scaling factor at each time `t` is
`A0 * exp (g * t)` for `kind = per_capita` and `A0 * L0 * exp ((g+n) * t)`
for `kind = levels`, with `A0, L0, g, n` read from the model's current
(pre-shock) parameters. -/
theorem padding_factor_formula (p : Dict) (A0 L0 g n : ℝ) (N i : ℕ)
    (hA : dict_lookup p "A0" = some A0) (hL : dict_lookup p "L0" = some L0)
    (hg : dict_lookup p "g" = some g) (hn : dict_lookup p "n" = some n)
    (hi : i < N) :
    (padding_time N).length = N ∧
    (padding_time N)[i]? = some (-(N : ℝ) + i) ∧
    (padding_scaling_factor p "per_capita" N).toOption.bind (fun l => l[i]?) =
      some (A0 * Real.exp (g * (-(N : ℝ) + i))) ∧
    (padding_scaling_factor p "levels" N).toOption.bind (fun l => l[i]?) =
      some (A0 * L0 * Real.exp ((g + n) * (-(N : ℝ) + i))) := by
  refine ⟨padding_time_length N, padding_time_getElem N i hi, ?_, ?_⟩
  · rw [padding_scaling_factor_per_capita p A0 L0 g n N hA hL hg hn]
    simp [Except.toOption, List.getElem?_map, padding_time_getElem N i hi]
  · rw [padding_scaling_factor_levels p A0 L0 g n N hA hL hg hn]
    simp [Except.toOption, List.getElem?_map, padding_time_getElem N i hi]

/-- Witness for C5: the padding factors of `exParams` at `i = 0`, `N = 10`. -/
theorem padding_factor_formula_witness :
    dict_lookup exParams "A0" = some 1 ∧ dict_lookup exParams "L0" = some 1 ∧
    dict_lookup exParams "g" = some 1 ∧ dict_lookup exParams "n" = some 0 ∧
    0 < 10 ∧
    ((padding_time 10).length = 10 ∧
     (padding_time 10)[0]? = some (-(10 : ℝ) + (0 : ℕ)) ∧
     (padding_scaling_factor exParams "per_capita" 10).toOption.bind
        (fun l => l[0]?) = some (1 * Real.exp (1 * (-(10 : ℝ) + (0 : ℕ)))) ∧
     (padding_scaling_factor exParams "levels" 10).toOption.bind
        (fun l => l[0]?) = some (1 * 1 * Real.exp ((1 + 0) * (-(10 : ℝ) + (0 : ℕ))))) :=
  ⟨rfl, rfl, rfl, rfl, by norm_num,
    padding_factor_formula exParams 1 1 1 0 10 0 rfl rfl rfl rfl (by norm_num)⟩

end Solow

namespace Solow

/-- C3: for `kind = per_capita` (rate `g`) and `kind = levels` (rate
`g+n`), the response scaling factor at each response time `τ ∈ {0, …, T}`
equals the last padding factor value — the padding scaling factor at time
`-1` — multiplied by `exp (rate * τ)`. -/
theorem response_factor_anchored (p : Dict) (A0 L0 g n : ℝ) (N T τ : ℕ)
    (hA : dict_lookup p "A0" = some A0) (hL : dict_lookup p "L0" = some L0)
    (hg : dict_lookup p "g" = some g) (hn : dict_lookup p "n" = some n)
    (hN : 0 < N) (hτ : τ ≤ T) :
    (padding_time N).getLast? = some (-1) ∧
    (padding_scaling_factor p "per_capita" N).toOption.bind List.getLast? =
      some (A0 * Real.exp (g * (-1))) ∧
    (response_scaling_factor p "per_capita" N T).toOption.bind (fun l => l[τ]?) =
      some (A0 * Real.exp (g * (-1)) * Real.exp (g * τ)) ∧
    (padding_scaling_factor p "levels" N).toOption.bind List.getLast? =
      some (A0 * L0 * Real.exp ((g + n) * (-1))) ∧
    (response_scaling_factor p "levels" N T).toOption.bind (fun l => l[τ]?) =
      some (A0 * L0 * Real.exp ((g + n) * (-1)) * Real.exp ((g + n) * τ)) := by
  refine ⟨padding_time_getLast N hN,
    padding_scaling_factor_per_capita_getLast p A0 L0 g n N hN hA hL hg hn, ?_,
    padding_scaling_factor_levels_getLast p A0 L0 g n N hN hA hL hg hn, ?_⟩
  · rw [response_scaling_factor_per_capita p A0 L0 g n N T hN hA hL hg hn]
    simp [Except.toOption, List.getElem?_map, response_time_getElem T τ hτ]
  · rw [response_scaling_factor_levels p A0 L0 g n N T hN hA hL hg hn]
    simp [Except.toOption, List.getElem?_map, response_time_getElem T τ hτ]

/-- Witness for C3: the anchored response factors of `exParams` at
`τ = 3`, `N = 10`, `T = 100`. -/
theorem response_factor_anchored_witness :
    dict_lookup exParams "A0" = some 1 ∧ dict_lookup exParams "L0" = some 1 ∧
    dict_lookup exParams "g" = some 1 ∧ dict_lookup exParams "n" = some 0 ∧
    0 < 10 ∧ 3 ≤ 100 ∧
    ((padding_time 10).getLast? = some (-1) ∧
     (padding_scaling_factor exParams "per_capita" 10).toOption.bind
        List.getLast? = some (1 * Real.exp (1 * (-1))) ∧
     (response_scaling_factor exParams "per_capita" 10 100).toOption.bind
        (fun l => l[3]?) = some (1 * Real.exp (1 * (-1)) * Real.exp (1 * (3 : ℕ))) ∧
     (padding_scaling_factor exParams "levels" 10).toOption.bind
        List.getLast? = some (1 * 1 * Real.exp ((1 + 0) * (-1))) ∧
     (response_scaling_factor exParams "levels" 10 100).toOption.bind
        (fun l => l[3]?) =
          some (1 * 1 * Real.exp ((1 + 0) * (-1)) * Real.exp ((1 + 0) * (3 : ℕ)))) :=
  ⟨rfl, rfl, rfl, rfl, by norm_num, by norm_num,
    response_factor_anchored exParams 1 1 1 0 10 100 3 rfl rfl rfl rfl
      (by norm_num) (by norm_num)⟩

end Solow

namespace Solow

/-- C4: for `kind = efficiency_units` every padding scaling factor and
every response scaling factor equals `1`, and consequently all `N` padding
rows carry the identical quadruple
`(k0, output k0, consumption k0, investment k0)` of pre-shock
steady-state values. -/
theorem efficiency_units_factors_one (m : Model) (p : Dict) (A0 L0 g n : ℝ)
    (N T : ℕ)
    (hA : dict_lookup p "A0" = some A0) (hL : dict_lookup p "L0" = some L0)
    (hg : dict_lookup p "g" = some g) (hn : dict_lookup p "n" = some n) :
    padding_scaling_factor p "efficiency_units" N =
      Except.ok (List.replicate N 1) ∧
    response_scaling_factor p "efficiency_units" N T =
      Except.ok (List.replicate (T + 1) 1) ∧
    padding_variables m p "efficiency_units" N =
      Except.ok (List.replicate N
        (m.steady_state p,
         m.evaluate_intensive_output p (m.steady_state p),
         m.evaluate_consumption p (m.steady_state p),
         m.evaluate_actual_investment p (m.steady_state p))) := by
  refine ⟨padding_scaling_factor_efficiency p A0 L0 g n N hA hL hg hn,
    response_scaling_factor_efficiency p g n N T hg hn, ?_⟩
  rw [padding_variables, padding_scaling_factor_efficiency p A0 L0 g n N hA hL hg hn]
  simp [bind, Except.bind, pure, Except.pure, List.map_replicate]

/-- Witness for C4: the `efficiency_units` factors and padding variables of
`okModel` on `exParams` with `N = 10`, `T = 100`. -/
theorem efficiency_units_factors_one_witness :
    dict_lookup exParams "A0" = some 1 ∧ dict_lookup exParams "L0" = some 1 ∧
    dict_lookup exParams "g" = some 1 ∧ dict_lookup exParams "n" = some 0 ∧
    (padding_scaling_factor exParams "efficiency_units" 10 =
      Except.ok (List.replicate 10 1) ∧
     response_scaling_factor exParams "efficiency_units" 10 100 =
      Except.ok (List.replicate (100 + 1) 1) ∧
     padding_variables okModel exParams "efficiency_units" 10 =
      Except.ok (List.replicate 10
        (okModel.steady_state exParams,
         okModel.evaluate_intensive_output exParams (okModel.steady_state exParams),
         okModel.evaluate_consumption exParams (okModel.steady_state exParams),
         okModel.evaluate_actual_investment exParams (okModel.steady_state exParams)))) :=
  ⟨rfl, rfl, rfl, rfl,
    efficiency_units_factors_one okModel exParams 1 1 1 0 10 100 rfl rfl rfl rfl⟩

end Solow

namespace Solow

/-- C6: setting the impulse to a non-mapping, or to a mapping with a key
not present in `model.params`, raises (an `AttributeError`) and leaves the
model's params — indeed the whole attribute state — untouched, while a
mapping whose keys all occur in `model.params` is stored as the impulse
and returned by the getter. -/
theorem impulse_setter_validation (st : IRState) (d : Dict) :
    set_impulse st ImpulseInput.nonDict = (Except.error Err.attributeError, st) ∧
    (¬ (∀ k ∈ dict_keys d, k ∈ dict_keys st.params) →
      set_impulse st (ImpulseInput.dict d) =
        (Except.error Err.attributeError, st)) ∧
    ((∀ k ∈ dict_keys d, k ∈ dict_keys st.params) →
      set_impulse st (ImpulseInput.dict d) =
        (Except.ok (), { st with impulse := some d }) ∧
      get_impulse { st with impulse := some d } = some d) := by
  refine ⟨rfl, ?_, ?_⟩
  · intro h
    have hb : ¬ ((dict_keys d).all fun k => k ∈ dict_keys st.params) = true := by
      simpa [List.all_eq_true] using h
    simp [set_impulse, validate_impulse, hb]
  · intro h
    have hb : ((dict_keys d).all fun k => k ∈ dict_keys st.params) = true := by
      simpa [List.all_eq_true] using h
    exact ⟨by simp [set_impulse, validate_impulse, hb], rfl⟩

/-- Witness for C6: a failed set with an unknown key and a successful set
with the key `g`, on the attribute state `⟨exParams, none, none⟩`. -/
theorem impulse_setter_validation_witness :
    set_impulse ⟨exParams, none, none⟩ ImpulseInput.nonDict =
      (Except.error Err.attributeError, ⟨exParams, none, none⟩) ∧
    (¬ (∀ k ∈ dict_keys [("nonexistent_param", (1 : ℝ))], k ∈ dict_keys exParams)) ∧
    set_impulse ⟨exParams, none, none⟩
        (ImpulseInput.dict [("nonexistent_param", 1)]) =
      (Except.error Err.attributeError, ⟨exParams, none, none⟩) ∧
    (∀ k ∈ dict_keys [("g", (2 : ℝ))], k ∈ dict_keys exParams) ∧
    set_impulse ⟨exParams, none, none⟩ (ImpulseInput.dict [("g", 2)]) =
      (Except.ok (), ⟨exParams, some [("g", 2)], none⟩) ∧
    get_impulse ⟨exParams, some [("g", 2)], none⟩ = some [("g", 2)] :=
  ⟨(impulse_setter_validation ⟨exParams, none, none⟩ []).1,
   by decide,
   (impulse_setter_validation ⟨exParams, none, none⟩
      [("nonexistent_param", 1)]).2.1 (by decide),
   by decide,
   ((impulse_setter_validation ⟨exParams, none, none⟩ [("g", 2)]).2.2
      (by decide)).1,
   ((impulse_setter_validation ⟨exParams, none, none⟩ [("g", 2)]).2.2
      (by decide)).2⟩

/-- C7: setting `kind` to a non-string or to a string outside
`{levels, per_capita, efficiency_units}` raises (an `AttributeError`) and
leaves the attribute state untouched, while each of the three enumerated
strings is stored and returned by a subsequent read of `kind`. -/
theorem kind_setter_validation (st : IRState) (s : String) :
    set_kind st KindInput.nonStr = (Except.error Err.attributeError, st) ∧
    (s ∉ valid_kinds →
      set_kind st (KindInput.str s) = (Except.error Err.attributeError, st)) ∧
    (s ∈ valid_kinds →
      set_kind st (KindInput.str s) = (Except.ok (), { st with kind := some s }) ∧
      get_kind { st with kind := some s } = some s) := by
  refine ⟨rfl, ?_, ?_⟩
  · intro h
    simp [set_kind, validate_kind, h]
  · intro h
    exact ⟨by simp [set_kind, validate_kind, h], rfl⟩

/-- Witness for C7: a failed set with the string `"Levels"` and a
successful set with `"per_capita"`, on the state `⟨exParams, none, none⟩`. -/
theorem kind_setter_validation_witness :
    set_kind ⟨exParams, none, none⟩ KindInput.nonStr =
      (Except.error Err.attributeError, ⟨exParams, none, none⟩) ∧
    ("Levels" ∉ valid_kinds) ∧
    set_kind ⟨exParams, none, none⟩ (KindInput.str "Levels") =
      (Except.error Err.attributeError, ⟨exParams, none, none⟩) ∧
    ("per_capita" ∈ valid_kinds) ∧
    set_kind ⟨exParams, none, none⟩ (KindInput.str "per_capita") =
      (Except.ok (), ⟨exParams, none, some "per_capita"⟩) ∧
    get_kind ⟨exParams, none, some "per_capita"⟩ = some "per_capita" :=
  ⟨(kind_setter_validation ⟨exParams, none, none⟩ "").1,
   by decide,
   (kind_setter_validation ⟨exParams, none, none⟩ "Levels").2.1 (by decide),
   by decide,
   ((kind_setter_validation ⟨exParams, none, none⟩ "per_capita").2.2
      (by decide)).1,
   ((kind_setter_validation ⟨exParams, none, none⟩ "per_capita").2.2
      (by decide)).2⟩

end Solow

namespace Solow

/-! ### Build decomposition -/

/-- On the success path, `impulse_response` returns the padding block
computed under the pre-impulse params, followed by the response rows
scaled and evaluated under the post-impulse params, and restores the
params by merging the snapshot back. -/
theorem impulse_response_ok (m : Model) (p imp : Dict) (kind : String)
    (N T : ℕ) (padRows : List Row) (soln : List (ℝ × ℝ)) (rf : List ℝ)
    (hpad : padding_block m p kind N = Except.ok padRows)
    (hsolve : m.ivp_solve (dict_update p imp) 0 (m.steady_state p) 1 T =
      Except.ok soln)
    (hlen : soln.length = T + 1)
    (hrf : response_scaling_factor (dict_update p imp) kind N T = Except.ok rf) :
    impulse_response m p imp kind N T =
      (Except.ok (padRows ++ response_rows m (dict_update p imp) soln rf T),
       dict_update (dict_update p imp) p) := by
  have hl : (soln.map Prod.snd).length = T + 1 := by
    rw [List.length_map]; exact hlen
  simp [impulse_response, response_block, response_variables, response_rows,
    hpad, hsolve, hrf, hl]

/-- On the integration-error path, `impulse_response` propagates the error
and returns the params with the impulse still merged in: the restoring
`update` on the normal path is never reached. -/
theorem impulse_response_solver_error (m : Model) (p imp : Dict)
    (kind : String) (N T : ℕ) (padRows : List Row) (e : Err)
    (hpad : padding_block m p kind N = Except.ok padRows)
    (hsolve : m.ivp_solve (dict_update p imp) 0 (m.steady_state p) 1 T =
      Except.error e) :
    impulse_response m p imp kind N T =
      (Except.error e, dict_update p imp) := by
  simp [impulse_response, response_block, response_variables, hpad, hsolve]

/-- The dictionary component returned by `_response_variables` is always
the post-impulse params, on success and on error alike. -/
theorem response_variables_snd (m : Model) (p imp : Dict) (kind : String)
    (N T : ℕ) :
    (response_variables m p imp kind N T).2 = dict_update p imp := by
  rw [response_variables]
  cases hs : m.ivp_solve (dict_update p imp) 0 (m.steady_state p) 1 T with
  | error e => simp
  | ok soln =>
    cases hr : response_scaling_factor (dict_update p imp) kind N T with
    | error e => simp
    | ok factor =>
      by_cases hl : soln.length = T + 1
      · simp [hl]
      · simp [hl]

/-- The dictionary component returned by `_response` is always the
post-impulse params. -/
theorem response_block_snd (m : Model) (p imp : Dict) (kind : String)
    (N T : ℕ) :
    (response_block m p imp kind N T).2 = dict_update p imp := by
  rw [response_block]
  cases hrv : response_variables m p imp kind N T with
  | mk rv prv =>
    have hprv : prv = dict_update p imp := by
      have h := response_variables_snd m p imp kind N T
      rw [hrv] at h
      exact h
    cases rv with
    | error e => simpa using hprv
    | ok vars => simpa using hprv

/-- On any success, the dictionary returned by `impulse_response` is
exactly the snapshot merged back over the mutated params. -/
theorem impulse_response_snd_of_ok (m : Model) (p imp : Dict) (kind : String)
    (N T : ℕ) (tbl : List Row) (pF : Dict)
    (h : impulse_response m p imp kind N T = (Except.ok tbl, pF)) :
    pF = dict_update (dict_update p imp) p := by
  rw [impulse_response] at h
  cases hpad : padding_block m p kind N with
  | error e => rw [hpad] at h; simp at h
  | ok padRows =>
    rw [hpad] at h
    cases hresp : response_block m p imp kind N T with
    | mk r p' =>
      have hp' : p' = dict_update p imp := by
        have hb := response_block_snd m p imp kind N T
        rw [hresp] at hb
        exact hb
      rw [hresp] at h
      cases r with
      | error e => simp at h
      | ok respRows =>
        simp only [Prod.mk.injEq] at h
        rw [← h.2, hp']

end Solow

namespace Solow

/-- C1 (code bug): at a concrete failing input — `failModel`, whose
integrator raises, with the valid impulse `{g: 2}` on params containing
`g = 1` — `impulse_response` propagates the integration error but returns
with the model's params still mutated (`g = 2`): the restoring
`params.update(orig_params)` line is only reached on the normal path, so
the spec's guaranteed cleanup on all exit paths fails. -/
theorem integration_error_leaves_params_mutated :
    (impulse_response failModel exParams [("g", 2)] "levels" 10 100).1 =
      Except.error Err.integrationError ∧
    dict_lookup
      (impulse_response failModel exParams [("g", 2)] "levels" 10 100).2 "g" =
      some 2 ∧
    dict_lookup exParams "g" = some 1 := by
  refine ⟨?_, ?_, rfl⟩ <;>
    simp [impulse_response, padding_block, padding_variables,
      padding_scaling_factor, getItem, dict_lookup, exParams, failModel,
      response_block, response_variables, dict_update, List.lookup, bind,
      Except.bind, pure, Except.pure]

end Solow

namespace Solow

/-! ### Shape and element lemmas -/

theorem padding_scaling_factor_ok (p : Dict) (kind : String) (N : ℕ)
    (hA : (dict_lookup p "A0").isSome) (hL : (dict_lookup p "L0").isSome)
    (hg : (dict_lookup p "g").isSome) (hn : (dict_lookup p "n").isSome) :
    ∃ pf, padding_scaling_factor p kind N = Except.ok pf ∧ pf.length = N := by
  obtain ⟨A0, hA⟩ := Option.isSome_iff_exists.1 hA
  obtain ⟨L0, hL⟩ := Option.isSome_iff_exists.1 hL
  obtain ⟨g, hg⟩ := Option.isSome_iff_exists.1 hg
  obtain ⟨n, hn⟩ := Option.isSome_iff_exists.1 hn
  by_cases h1 : kind = "per_capita"
  · subst h1
    exact ⟨_, padding_scaling_factor_per_capita p A0 L0 g n N hA hL hg hn,
      by rw [List.length_map, padding_time_length]⟩
  by_cases h2 : kind = "levels"
  · subst h2
    exact ⟨_, padding_scaling_factor_levels p A0 L0 g n N hA hL hg hn,
      by rw [List.length_map, padding_time_length]⟩
  refine ⟨List.replicate N 1, ?_, List.length_replicate N 1⟩
  simp [padding_scaling_factor, getItem, hA, hL, hg, hn, bind, Except.bind,
    pure, Except.pure, h1, h2]

theorem response_scaling_factor_ok (p : Dict) (kind : String) (N T : ℕ)
    (hN : 0 < N)
    (hA : (dict_lookup p "A0").isSome) (hL : (dict_lookup p "L0").isSome)
    (hg : (dict_lookup p "g").isSome) (hn : (dict_lookup p "n").isSome) :
    ∃ rf, response_scaling_factor p kind N T = Except.ok rf ∧
      rf.length = T + 1 := by
  obtain ⟨A0, hA⟩ := Option.isSome_iff_exists.1 hA
  obtain ⟨L0, hL⟩ := Option.isSome_iff_exists.1 hL
  obtain ⟨g, hg⟩ := Option.isSome_iff_exists.1 hg
  obtain ⟨n, hn⟩ := Option.isSome_iff_exists.1 hn
  by_cases h1 : kind = "per_capita"
  · subst h1
    exact ⟨_, response_scaling_factor_per_capita p A0 L0 g n N T hN hA hL hg hn,
      by rw [List.length_map, response_time_length]⟩
  by_cases h2 : kind = "levels"
  · subst h2
    exact ⟨_, response_scaling_factor_levels p A0 L0 g n N T hN hA hL hg hn,
      by rw [List.length_map, response_time_length]⟩
  refine ⟨List.replicate (T + 1) 1, ?_, List.length_replicate (T + 1) 1⟩
  simp [response_scaling_factor, getItem, hA, hL, hg, hn, bind, Except.bind,
    pure, Except.pure, h1, h2]

theorem padding_variables_of_factor (m : Model) (p : Dict) (kind : String)
    (N : ℕ) (pf : List ℝ)
    (hpf : padding_scaling_factor p kind N = Except.ok pf) :
    padding_variables m p kind N = Except.ok (pf.map fun f =>
      (f * m.steady_state p,
       f * m.evaluate_intensive_output p (m.steady_state p),
       f * m.evaluate_consumption p (m.steady_state p),
       f * m.evaluate_actual_investment p (m.steady_state p))) := by
  simp [padding_variables, hpf, bind, Except.bind, pure, Except.pure]

theorem padding_block_of_factor (m : Model) (p : Dict) (kind : String)
    (N : ℕ) (pf : List ℝ)
    (hpf : padding_scaling_factor p kind N = Except.ok pf) :
    padding_block m p kind N = Except.ok
      (((padding_time N).zip (pf.map fun f =>
        (f * m.steady_state p,
         f * m.evaluate_intensive_output p (m.steady_state p),
         f * m.evaluate_consumption p (m.steady_state p),
         f * m.evaluate_actual_investment p (m.steady_state p)))).map fun tv =>
        ⟨tv.1, tv.2.1, tv.2.2.1, tv.2.2.2.1, tv.2.2.2.2⟩) := by
  simp [padding_block, padding_variables_of_factor m p kind N pf hpf, bind,
    Except.bind, pure, Except.pure]

theorem padding_block_getElem (m : Model) (p : Dict) (kind : String)
    (N i : ℕ) (pf : List ℝ) (f : ℝ)
    (hpf : padding_scaling_factor p kind N = Except.ok pf)
    (hf : pf[i]? = some f) (hi : i < N) :
    (padding_block m p kind N).toOption.bind (fun l => l[i]?) =
      some ⟨-(N : ℝ) + i,
        f * m.steady_state p,
        f * m.evaluate_intensive_output p (m.steady_state p),
        f * m.evaluate_consumption p (m.steady_state p),
        f * m.evaluate_actual_investment p (m.steady_state p)⟩ := by
  rw [padding_block_of_factor m p kind N pf hpf]
  simp [Except.toOption, List.zip, List.getElem?_zipWith,
    padding_time_getElem N i hi, hf]

theorem response_rows_length (m : Model) (p' : Dict) (soln : List (ℝ × ℝ))
    (rf : List ℝ) (T : ℕ) (hlen : soln.length = T + 1)
    (hrlen : rf.length = T + 1) :
    (response_rows m p' soln rf T).length = T + 1 := by
  simp [response_rows, List.length_zip, List.length_zipWith, hlen, hrlen,
    response_time_length]

theorem response_rows_getElem (m : Model) (p' : Dict) (soln : List (ℝ × ℝ))
    (rf : List ℝ) (T j : ℕ) (f kj : ℝ)
    (hrf : rf[j]? = some f) (hk : (soln.map Prod.snd)[j]? = some kj)
    (hj : j ≤ T) :
    (response_rows m p' soln rf T)[j]? =
      some ⟨(j : ℝ), f * kj,
        f * m.evaluate_intensive_output p' kj,
        f * m.evaluate_consumption p' kj,
        f * m.evaluate_actual_investment p' kj⟩ := by
  have hk' : ∃ a, soln[j]? = some a ∧ a.2 = kj := by
    rw [List.getElem?_map] at hk
    cases h : soln[j]? with
    | none => rw [h] at hk; simp at hk
    | some a =>
      rw [h] at hk
      simp at hk
      exact ⟨a, rfl, hk⟩
  obtain ⟨a, ha, hak⟩ := hk'
  simp [response_rows, List.zip, List.getElem?_zipWith,
    response_time_getElem T j hj, hrf, ha, hak]

end Solow

namespace Solow

theorem dict_lookup_update_isSome (p imp : Dict) (k : String)
    (h : (dict_lookup p k).isSome) :
    (dict_lookup (dict_update p imp) k).isSome := by
  rw [dict_lookup_update]
  cases him : dict_lookup imp k with
  | none => simpa [Option.or]
  | some v => simp [Option.or]

theorem padding_block_length (m : Model) (p : Dict) (kind : String) (N : ℕ)
    (pf : List ℝ) (padRows : List Row)
    (hpf : padding_scaling_factor p kind N = Except.ok pf)
    (hpflen : pf.length = N)
    (hpb : padding_block m p kind N = Except.ok padRows) :
    padRows.length = N := by
  rw [padding_block_of_factor m p kind N pf hpf] at hpb
  injection hpb with h
  rw [← h]
  simp [List.length_zip, hpflen, padding_time_length]

/-- C8: with the default configuration `N = 10`, `T = 100` (and a solver
returning the contracted `T + 1 = 101` rows), the table returned by
`impulse_response` has exactly `N + T + 1 = 111` rows of columns
`(time, capital, output, consumption, investment)`, ordered by time
ascending: the first `10` rows carry times `-10, …, -1` and the following
`101` rows carry times `0, …, 100`. -/
theorem table_shape_default (m : Model) (p imp : Dict) (kind : String)
    (soln : List (ℝ × ℝ))
    (hA : (dict_lookup p "A0").isSome) (hL : (dict_lookup p "L0").isSome)
    (hg : (dict_lookup p "g").isSome) (hn : (dict_lookup p "n").isSome)
    (hsolve : m.ivp_solve (dict_update p imp) 0 (m.steady_state p) 1 100 =
      Except.ok soln)
    (hlen : soln.length = 101) :
    (impulse_response m p imp kind 10 100).1.toOption.map List.length =
      some 111 ∧
    (∀ i, i < 10 →
      (table_row (impulse_response m p imp kind 10 100).1 i).map Row.time =
        some (-(10 : ℝ) + i)) ∧
    (∀ j, j ≤ 100 →
      (table_row (impulse_response m p imp kind 10 100).1 (10 + j)).map
        Row.time = some (j : ℝ)) := by
  have hA' := dict_lookup_update_isSome p imp "A0" hA
  have hL' := dict_lookup_update_isSome p imp "L0" hL
  have hg' := dict_lookup_update_isSome p imp "g" hg
  have hn' := dict_lookup_update_isSome p imp "n" hn
  obtain ⟨pf, hpf, hpflen⟩ := padding_scaling_factor_ok p kind 10 hA hL hg hn
  obtain ⟨rf, hrf, hrflen⟩ := response_scaling_factor_ok (dict_update p imp)
    kind 10 100 (by norm_num) hA' hL' hg' hn'
  obtain ⟨padRows, hpb⟩ : ∃ pr, padding_block m p kind 10 = Except.ok pr := by
    rw [padding_block_of_factor m p kind 10 pf hpf]
    exact ⟨_, rfl⟩
  have hplen : padRows.length = 10 :=
    padding_block_length m p kind 10 pf padRows hpf hpflen hpb
  have htbl := impulse_response_ok m p imp kind 10 100 padRows soln rf hpb
    hsolve hlen hrf
  have hrlen := response_rows_length m (dict_update p imp) soln rf 100 hlen
    hrflen
  refine ⟨?_, ?_, ?_⟩
  · rw [htbl]
    simp [Except.toOption, List.length_append, hplen, hrlen]
  · intro i hi
    have hf : pf[i]? = some (pf.get ⟨i, by omega⟩) :=
      List.getElem?_eq_getElem (by omega)
    have hel := padding_block_getElem m p kind 10 i pf (pf.get ⟨i, by omega⟩)
      hpf hf hi
    rw [hpb] at hel
    simp only [Except.toOption] at hel
    rw [Option.some_bind] at hel
    have hfst : (impulse_response m p imp kind 10 100).1 =
        Except.ok (padRows ++ response_rows m (dict_update p imp) soln rf 100) := by
      rw [htbl]
    rw [hfst]
    simp only [table_row]
    rw [List.getElem?_append, if_pos (by omega), hel]
    rfl
  · intro j hj
    have hf : rf[j]? = some (rf.get ⟨j, by omega⟩) :=
      List.getElem?_eq_getElem (by omega)
    have hkl : j < (soln.map Prod.snd).length := by
      rw [List.length_map]; omega
    have hkj : (soln.map Prod.snd)[j]? =
        some ((soln.map Prod.snd).get ⟨j, hkl⟩) :=
      List.getElem?_eq_getElem hkl
    have hel := response_rows_getElem m (dict_update p imp) soln rf 100 j
      (rf.get ⟨j, by omega⟩) ((soln.map Prod.snd).get ⟨j, hkl⟩) hf hkj hj
    have hfst : (impulse_response m p imp kind 10 100).1 =
        Except.ok (padRows ++ response_rows m (dict_update p imp) soln rf 100) := by
      rw [htbl]
    rw [hfst]
    simp only [table_row]
    rw [List.getElem?_append, if_neg (by omega)]
    have hidx : 10 + j - padRows.length = j := by omega
    rw [hidx, hel]
    rfl

end Solow

namespace Solow

/-- Witness for C8: the default-shape facts evaluated on `okModel` with
`exParams`, an empty impulse and `kind = levels`, at rows `0` and `10 + 5`. -/
theorem table_shape_default_witness :
    (dict_lookup exParams "A0").isSome = true ∧
    (dict_lookup exParams "L0").isSome = true ∧
    (dict_lookup exParams "g").isSome = true ∧
    (dict_lookup exParams "n").isSome = true ∧
    okModel.ivp_solve (dict_update exParams []) 0
        (okModel.steady_state exParams) 1 100 =
      Except.ok ((List.range 101).map fun i : ℕ => ((i : ℝ), 1)) ∧
    ((List.range 101).map fun i : ℕ => ((i : ℝ), 1)).length = 101 ∧
    (impulse_response okModel exParams [] "levels" 10 100).1.toOption.map
      List.length = some 111 ∧
    (table_row (impulse_response okModel exParams [] "levels" 10 100).1 0).map
      Row.time = some (-(10 : ℝ) + (0 : ℕ)) ∧
    (table_row (impulse_response okModel exParams [] "levels" 10 100).1
      (10 + 5)).map Row.time = some ((5 : ℕ) : ℝ) :=
  ⟨rfl, rfl, rfl, rfl, rfl, by simp,
   (table_shape_default okModel exParams [] "levels"
      ((List.range 101).map fun i : ℕ => ((i : ℝ), 1))
      rfl rfl rfl rfl rfl (by simp)).1,
   (table_shape_default okModel exParams [] "levels"
      ((List.range 101).map fun i : ℕ => ((i : ℝ), 1))
      rfl rfl rfl rfl rfl (by simp)).2.1 0 (by norm_num),
   (table_shape_default okModel exParams [] "levels"
      ((List.range 101).map fun i : ℕ => ((i : ℝ), 1))
      rfl rfl rfl rfl rfl (by simp)).2.2 5 (by norm_num)⟩

end Solow

namespace Solow

/-- C10 (implicit): during `impulse_response` the padding block — times and
scaled steady-state values — is computed entirely under the pre-impulse
params `p`, while the response rows are scaled by a factor computed from,
and evaluated under, the post-impulse params `dict_update p imp`
(including the padding-anchor value inside `response_scaling_factor` and
the rates `g`, `n`); hence for every impulse that modifies any of
`A0`, `L0`, `g` or `n`, the two windows read different parameter values
at that key. -/
theorem response_uses_post_impulse_params (m : Model) (p imp : Dict)
    (kind : String) (N T : ℕ) (padRows : List Row) (soln : List (ℝ × ℝ))
    (rf : List ℝ)
    (hpad : padding_block m p kind N = Except.ok padRows)
    (hsolve : m.ivp_solve (dict_update p imp) 0 (m.steady_state p) 1 T =
      Except.ok soln)
    (hlen : soln.length = T + 1)
    (hrf : response_scaling_factor (dict_update p imp) kind N T =
      Except.ok rf) :
    impulse_response m p imp kind N T =
      (Except.ok (padRows ++ response_rows m (dict_update p imp) soln rf T),
       dict_update (dict_update p imp) p) ∧
    (∀ key vNew, key ∈ ["A0", "L0", "g", "n"] →
      dict_lookup imp key = some vNew →
      dict_lookup p key ≠ some vNew →
      dict_lookup (dict_update p imp) key ≠ dict_lookup p key) := by
  refine ⟨impulse_response_ok m p imp kind N T padRows soln rf hpad hsolve
    hlen hrf, ?_⟩
  intro key vNew hkey hi hne
  rw [dict_lookup_update, hi]
  simp only [Option.or]
  intro h
  exact hne h.symm

/-- Witness for C10: `okModel` on `exParams` with the impulse `{g: 2}`
under `per_capita`, where the padding block reads `g = 1` and the response
factor reads `g = 2`. -/
theorem response_uses_post_impulse_params_witness :
    padding_block okModel exParams "per_capita" 10 = Except.ok exPadRows ∧
    okModel.ivp_solve (dict_update exParams [("g", 2)]) 0
        (okModel.steady_state exParams) 1 100 = Except.ok exSoln ∧
    exSoln.length = 100 + 1 ∧
    response_scaling_factor (dict_update exParams [("g", 2)]) "per_capita"
        10 100 = Except.ok exRf ∧
    ("g" ∈ ["A0", "L0", "g", "n"]) ∧
    dict_lookup [("g", 2)] "g" = some 2 ∧
    dict_lookup exParams "g" ≠ some 2 ∧
    (impulse_response okModel exParams [("g", 2)] "per_capita" 10 100 =
      (Except.ok (exPadRows ++ response_rows okModel
        (dict_update exParams [("g", 2)]) exSoln exRf 100),
       dict_update (dict_update exParams [("g", 2)]) exParams) ∧
     dict_lookup (dict_update exParams [("g", 2)]) "g" ≠
       dict_lookup exParams "g") := by
  have hpad : padding_block okModel exParams "per_capita" 10 =
      Except.ok exPadRows := by
    rw [exPadRows, padding_block_of_factor okModel exParams "per_capita" 10 _
      (padding_scaling_factor_per_capita exParams 1 1 1 0 10 rfl rfl rfl rfl)]
    rfl
  have hrf : response_scaling_factor (dict_update exParams [("g", 2)])
      "per_capita" 10 100 = Except.ok exRf := by
    rw [exRf, response_scaling_factor_per_capita
      (dict_update exParams [("g", 2)]) 1 1 2 0 10 100 (by norm_num)
      rfl rfl rfl rfl]
    rfl
  have hne2 : dict_lookup exParams "g" ≠ some 2 := by
    intro h
    have h1 : some (1 : ℝ) = some 2 := h
    have h2 := Option.some.inj h1
    norm_num at h2
  have hth := response_uses_post_impulse_params okModel exParams [("g", 2)]
    "per_capita" 10 100 exPadRows exSoln exRf hpad rfl (by simp [exSoln]) hrf
  exact ⟨hpad, rfl, by simp [exSoln], hrf, by decide, rfl, hne2,
    hth.1, hth.2 "g" 2 (by decide) rfl hne2⟩

end Solow

namespace Solow

theorem cast_pred_time (N : ℕ) (hN : 0 < N) :
    -(N : ℝ) + ((N - 1 : ℕ) : ℝ) = -1 := by
  have h1 : (1 : ℕ) ≤ N := hN
  push_cast [h1]
  ring

/-- C2 counterexample: on `okModel` with params `A0 = L0 = 1`, `g = 1`,
`n = 0`, an empty impulse and `kind = per_capita` (rate `g = 1`), the
scaled capital at padding time `-1` (row 9) and at response time `0`
(row 10) are both `exp (-1)`, whereas the claim requires the value at
time `0` to be `exp (rate * 1)` times the value at time `-1`; since
`exp (-1) ≠ exp (1 * 1) * exp (-1)`, the claimed one-step growth relation
fails at the boundary. -/
theorem boundary_growth_factor_counterexample :
    (table_row (impulse_response okModel exParams [] "per_capita" 10 100).1
      9).map Row.capital = some (Real.exp (-1)) ∧
    (table_row (impulse_response okModel exParams [] "per_capita" 10 100).1
      10).map Row.capital = some (Real.exp (-1)) ∧
    Real.exp (-1) ≠ Real.exp (1 * 1) * Real.exp (-1) := by
  have hpf := padding_scaling_factor_per_capita exParams 1 1 1 0 10
    rfl rfl rfl rfl
  have hrf := response_scaling_factor_per_capita exParams 1 1 1 0 10 100
    (by norm_num) rfl rfl rfl rfl
  obtain ⟨padRows, hpb⟩ : ∃ pr,
      padding_block okModel exParams "per_capita" 10 = Except.ok pr := by
    rw [padding_block_of_factor okModel exParams "per_capita" 10 _ hpf]
    exact ⟨_, rfl⟩
  have hplen : padRows.length = 10 :=
    padding_block_length okModel exParams "per_capita" 10 _ padRows hpf
      (by rw [List.length_map, padding_time_length]) hpb
  have htbl := impulse_response_ok okModel exParams [] "per_capita" 10 100
    padRows exSoln _ hpb rfl (by simp [exSoln]) hrf
  have hfst : (impulse_response okModel exParams [] "per_capita" 10 100).1 =
      Except.ok (padRows ++
        response_rows okModel exParams exSoln
          ((response_time 100).map fun t =>
            1 * Real.exp (1 * (-1)) * Real.exp (1 * t)) 100) := by
    rw [htbl]
    rfl
  have hf9 : ((padding_time 10).map fun t => 1 * Real.exp (1 * t))[9]? =
      some (1 * Real.exp (1 * (-(10 : ℝ) + (9 : ℕ)))) := by
    rw [List.getElem?_map, padding_time_getElem 10 9 (by norm_num)]
    rfl
  have hel9 := padding_block_getElem okModel exParams "per_capita" 10 9 _ _
    hpf hf9 (by norm_num)
  rw [hpb] at hel9
  simp only [Except.toOption] at hel9
  rw [Option.some_bind] at hel9
  have hf0 : ((response_time 100).map fun t =>
      1 * Real.exp (1 * (-1)) * Real.exp (1 * t))[0]? =
      some (1 * Real.exp (1 * (-1)) * Real.exp (1 * ((0 : ℕ) : ℝ))) := by
    rw [List.getElem?_map, response_time_getElem 100 0 (by norm_num)]
    rfl
  have hk0 : (exSoln.map Prod.snd)[0]? = some 1 := by
    simp [exSoln, List.getElem?_range]
  have hel10 := response_rows_getElem okModel exParams exSoln
    ((response_time 100).map fun t =>
      1 * Real.exp (1 * (-1)) * Real.exp (1 * t)) 100 0 _ 1 hf0 hk0
    (by norm_num)
  refine ⟨?_, ?_, ?_⟩
  · rw [hfst]
    simp only [table_row]
    rw [List.getElem?_append, if_pos (by omega), hel9]
    simp [okModel]
    norm_num
  · rw [hfst]
    simp only [table_row]
    rw [List.getElem?_append, if_neg (by omega)]
    have hidx : 10 - padRows.length = 0 := by omega
    rw [hidx, hel10]
    simp [okModel, Real.exp_zero]
  · rw [← Real.exp_add]
    norm_num [Real.exp_eq_one_iff]

end Solow

namespace Solow

/-- Boundary comparison for any kind: when the padding factor at its last
index and the response factor at index `0` share the value `anchor`, and
the impulse does not change the evaluations at the steady state, the row
at padding time `-1` and the row at response time `0` carry the same
scaled quadruple. -/
theorem boundary_rows_equal_aux (m : Model) (p imp : Dict) (kind : String)
    (N T : ℕ) (pf rf : List ℝ) (anchor : ℝ) (soln : List (ℝ × ℝ))
    (hN : 0 < N)
    (hpf : padding_scaling_factor p kind N = Except.ok pf)
    (hpflen : pf.length = N)
    (hfN : pf[N - 1]? = some anchor)
    (hrf : response_scaling_factor (dict_update p imp) kind N T =
      Except.ok rf)
    (hrf0 : rf[0]? = some anchor)
    (hy : m.evaluate_intensive_output (dict_update p imp) (m.steady_state p) =
      m.evaluate_intensive_output p (m.steady_state p))
    (hc : m.evaluate_consumption (dict_update p imp) (m.steady_state p) =
      m.evaluate_consumption p (m.steady_state p))
    (hinv : m.evaluate_actual_investment (dict_update p imp)
        (m.steady_state p) =
      m.evaluate_actual_investment p (m.steady_state p))
    (hsolve : m.ivp_solve (dict_update p imp) 0 (m.steady_state p) 1 T =
      Except.ok soln)
    (hlen : soln.length = T + 1)
    (hk0 : (soln.map Prod.snd)[0]? = some (m.steady_state p)) :
    (table_row (impulse_response m p imp kind N T).1 (N - 1)).map Row.time =
      some (-1) ∧
    (table_row (impulse_response m p imp kind N T).1 N).map Row.time =
      some 0 ∧
    (table_row (impulse_response m p imp kind N T).1 N).map Row.capital =
      (table_row (impulse_response m p imp kind N T).1 (N - 1)).map
        Row.capital ∧
    (table_row (impulse_response m p imp kind N T).1 N).map Row.output =
      (table_row (impulse_response m p imp kind N T).1 (N - 1)).map
        Row.output ∧
    (table_row (impulse_response m p imp kind N T).1 N).map Row.consumption =
      (table_row (impulse_response m p imp kind N T).1 (N - 1)).map
        Row.consumption ∧
    (table_row (impulse_response m p imp kind N T).1 N).map Row.investment =
      (table_row (impulse_response m p imp kind N T).1 (N - 1)).map
        Row.investment := by
  obtain ⟨padRows, hpb⟩ : ∃ pr, padding_block m p kind N = Except.ok pr := by
    rw [padding_block_of_factor m p kind N pf hpf]
    exact ⟨_, rfl⟩
  have hplen : padRows.length = N :=
    padding_block_length m p kind N pf padRows hpf hpflen hpb
  have htbl := impulse_response_ok m p imp kind N T padRows soln rf hpb
    hsolve hlen hrf
  have hfst : (impulse_response m p imp kind N T).1 =
      Except.ok (padRows ++
        response_rows m (dict_update p imp) soln rf T) := by
    rw [htbl]
  have helN := padding_block_getElem m p kind N (N - 1) pf anchor hpf hfN
    (by omega)
  rw [hpb] at helN
  simp only [Except.toOption] at helN
  rw [Option.some_bind] at helN
  have hel0 := response_rows_getElem m (dict_update p imp) soln rf T 0
    anchor (m.steady_state p) hrf0 hk0 (by omega)
  have hrowN : (table_row (impulse_response m p imp kind N T).1 (N - 1)) =
      some ⟨-(N : ℝ) + ((N - 1 : ℕ) : ℝ),
        anchor * m.steady_state p,
        anchor * m.evaluate_intensive_output p (m.steady_state p),
        anchor * m.evaluate_consumption p (m.steady_state p),
        anchor * m.evaluate_actual_investment p (m.steady_state p)⟩ := by
    rw [hfst]
    simp only [table_row]
    rw [List.getElem?_append, if_pos (by omega), helN]
  have hrow0 : (table_row (impulse_response m p imp kind N T).1 N) =
      some ⟨((0 : ℕ) : ℝ),
        anchor * m.steady_state p,
        anchor * m.evaluate_intensive_output (dict_update p imp)
          (m.steady_state p),
        anchor * m.evaluate_consumption (dict_update p imp)
          (m.steady_state p),
        anchor * m.evaluate_actual_investment (dict_update p imp)
          (m.steady_state p)⟩ := by
    rw [hfst]
    simp only [table_row]
    rw [List.getElem?_append, if_neg (by omega)]
    have hidx : N - padRows.length = 0 := by omega
    rw [hidx, hel0]
  rw [hrowN, hrow0]
  refine ⟨by simp [cast_pred_time N hN], by simp, by simp, by simp [hy],
    by simp [hc], by simp [hinv]⟩

end Solow

namespace Solow

/-- C2 (amended): for `kind = per_capita` (rate `g`) or `kind = levels`
(rate `g+n`), the scaled quadruple at padding time `-1` and the scaled
quadruple at response time `0` are equal — the response factor at time `0`
is anchored at the padding factor of time `-1` with `exp (rate * 0) = 1`,
so the boundary ratio is `1`, not the claimed single-step growth factor
`exp (rate * 1)` — provided the impulse preserves `A0, L0, g, n` and the
evaluations at the pre-shock steady state, and the solver trajectory
starts at the steady state. -/
theorem boundary_rows_equal (m : Model) (p imp : Dict) (kind : String)
    (A0 L0 g n : ℝ) (N T : ℕ) (soln : List (ℝ × ℝ))
    (hkind : kind = "per_capita" ∨ kind = "levels")
    (hN : 0 < N)
    (hA : dict_lookup p "A0" = some A0) (hL : dict_lookup p "L0" = some L0)
    (hg : dict_lookup p "g" = some g) (hn : dict_lookup p "n" = some n)
    (hA' : dict_lookup (dict_update p imp) "A0" = some A0)
    (hL' : dict_lookup (dict_update p imp) "L0" = some L0)
    (hg' : dict_lookup (dict_update p imp) "g" = some g)
    (hn' : dict_lookup (dict_update p imp) "n" = some n)
    (hy : m.evaluate_intensive_output (dict_update p imp) (m.steady_state p) =
      m.evaluate_intensive_output p (m.steady_state p))
    (hc : m.evaluate_consumption (dict_update p imp) (m.steady_state p) =
      m.evaluate_consumption p (m.steady_state p))
    (hinv : m.evaluate_actual_investment (dict_update p imp)
        (m.steady_state p) =
      m.evaluate_actual_investment p (m.steady_state p))
    (hsolve : m.ivp_solve (dict_update p imp) 0 (m.steady_state p) 1 T =
      Except.ok soln)
    (hlen : soln.length = T + 1)
    (hk0 : (soln.map Prod.snd)[0]? = some (m.steady_state p)) :
    (table_row (impulse_response m p imp kind N T).1 (N - 1)).map Row.time =
      some (-1) ∧
    (table_row (impulse_response m p imp kind N T).1 N).map Row.time =
      some 0 ∧
    (table_row (impulse_response m p imp kind N T).1 N).map Row.capital =
      (table_row (impulse_response m p imp kind N T).1 (N - 1)).map
        Row.capital ∧
    (table_row (impulse_response m p imp kind N T).1 N).map Row.output =
      (table_row (impulse_response m p imp kind N T).1 (N - 1)).map
        Row.output ∧
    (table_row (impulse_response m p imp kind N T).1 N).map Row.consumption =
      (table_row (impulse_response m p imp kind N T).1 (N - 1)).map
        Row.consumption ∧
    (table_row (impulse_response m p imp kind N T).1 N).map Row.investment =
      (table_row (impulse_response m p imp kind N T).1 (N - 1)).map
        Row.investment := by
  rcases hkind with h | h
  · subst h
    have hfN : ((padding_time N).map fun t => A0 * Real.exp (g * t))[N - 1]? =
        some (A0 * Real.exp (g * (-1))) := by
      rw [List.getElem?_map, padding_time_getElem N (N - 1) (by omega)]
      simp [cast_pred_time N hN]
    have hrf0 : ((response_time T).map fun t =>
        A0 * Real.exp (g * (-1)) * Real.exp (g * t))[0]? =
        some (A0 * Real.exp (g * (-1))) := by
      rw [List.getElem?_map, response_time_getElem T 0 (by omega)]
      simp
    exact boundary_rows_equal_aux m p imp "per_capita" N T _ _
      (A0 * Real.exp (g * (-1))) soln hN
      (padding_scaling_factor_per_capita p A0 L0 g n N hA hL hg hn)
      (by rw [List.length_map, padding_time_length]) hfN
      (response_scaling_factor_per_capita (dict_update p imp) A0 L0 g n N T
        hN hA' hL' hg' hn') hrf0 hy hc hinv hsolve hlen hk0
  · subst h
    have hfN : ((padding_time N).map fun t =>
        A0 * L0 * Real.exp ((g + n) * t))[N - 1]? =
        some (A0 * L0 * Real.exp ((g + n) * (-1))) := by
      rw [List.getElem?_map, padding_time_getElem N (N - 1) (by omega)]
      simp [cast_pred_time N hN]
    have hrf0 : ((response_time T).map fun t =>
        A0 * L0 * Real.exp ((g + n) * (-1)) * Real.exp ((g + n) * t))[0]? =
        some (A0 * L0 * Real.exp ((g + n) * (-1))) := by
      rw [List.getElem?_map, response_time_getElem T 0 (by omega)]
      simp
    exact boundary_rows_equal_aux m p imp "levels" N T _ _
      (A0 * L0 * Real.exp ((g + n) * (-1))) soln hN
      (padding_scaling_factor_levels p A0 L0 g n N hA hL hg hn)
      (by rw [List.length_map, padding_time_length]) hfN
      (response_scaling_factor_levels (dict_update p imp) A0 L0 g n N T
        hN hA' hL' hg' hn') hrf0 hy hc hinv hsolve hlen hk0

end Solow

namespace Solow

/-- Witness for the amended C2: `okModel` on `exParams` with an empty
impulse and `kind = per_capita` — the rows at padding time `-1` (index 9)
and response time `0` (index 10) carry equal quadruples. -/
theorem boundary_rows_equal_witness :
    ("per_capita" = "per_capita" ∨ "per_capita" = "levels") ∧
    0 < 10 ∧
    dict_lookup exParams "A0" = some 1 ∧
    dict_lookup exParams "L0" = some 1 ∧
    dict_lookup exParams "g" = some 1 ∧
    dict_lookup exParams "n" = some 0 ∧
    dict_lookup (dict_update exParams []) "A0" = some 1 ∧
    dict_lookup (dict_update exParams []) "L0" = some 1 ∧
    dict_lookup (dict_update exParams []) "g" = some 1 ∧
    dict_lookup (dict_update exParams []) "n" = some 0 ∧
    okModel.ivp_solve (dict_update exParams []) 0
      (okModel.steady_state exParams) 1 100 = Except.ok exSoln ∧
    exSoln.length = 100 + 1 ∧
    (exSoln.map Prod.snd)[0]? = some (okModel.steady_state exParams) ∧
    ((table_row (impulse_response okModel exParams [] "per_capita" 10 100).1
        (10 - 1)).map Row.time = some (-1) ∧
     (table_row (impulse_response okModel exParams [] "per_capita" 10 100).1
        10).map Row.time = some 0 ∧
     (table_row (impulse_response okModel exParams [] "per_capita" 10 100).1
        10).map Row.capital =
       (table_row (impulse_response okModel exParams [] "per_capita" 10
        100).1 (10 - 1)).map Row.capital ∧
     (table_row (impulse_response okModel exParams [] "per_capita" 10 100).1
        10).map Row.output =
       (table_row (impulse_response okModel exParams [] "per_capita" 10
        100).1 (10 - 1)).map Row.output ∧
     (table_row (impulse_response okModel exParams [] "per_capita" 10 100).1
        10).map Row.consumption =
       (table_row (impulse_response okModel exParams [] "per_capita" 10
        100).1 (10 - 1)).map Row.consumption ∧
     (table_row (impulse_response okModel exParams [] "per_capita" 10 100).1
        10).map Row.investment =
       (table_row (impulse_response okModel exParams [] "per_capita" 10
        100).1 (10 - 1)).map Row.investment) :=
  ⟨Or.inl rfl, by norm_num, rfl, rfl, rfl, rfl, rfl, rfl, rfl, rfl, rfl,
   by simp [exSoln], by simp [exSoln, okModel, List.getElem?_range],
   boundary_rows_equal okModel exParams [] "per_capita" 1 1 1 0 10 100
     exSoln (Or.inl rfl) (by norm_num) rfl rfl rfl rfl rfl rfl rfl rfl
     rfl rfl rfl rfl (by simp [exSoln])
     (by simp [exSoln, okModel, List.getElem?_range])⟩

end Solow

namespace Solow

/-! ### Congruence of the build under key-for-key equal params -/

theorem dict_eqv_update (p q imp : Dict) (h : dict_eqv p q) :
    dict_eqv (dict_update p imp) (dict_update q imp) := by
  intro k
  rw [dict_lookup_update, dict_lookup_update, h k]

theorem getItem_congr (p q : Dict) (h : dict_eqv p q) (k : String) :
    getItem p k = getItem q k := by
  unfold getItem
  rw [h k]

theorem padding_scaling_factor_congr (p q : Dict) (h : dict_eqv p q)
    (kind : String) (N : ℕ) :
    padding_scaling_factor p kind N = padding_scaling_factor q kind N := by
  unfold padding_scaling_factor
  rw [getItem_congr p q h "A0", getItem_congr p q h "L0",
    getItem_congr p q h "g", getItem_congr p q h "n"]

theorem padding_variables_congr (m : Model) (hm : m.Respects) (p q : Dict)
    (h : dict_eqv p q) (kind : String) (N : ℕ) :
    padding_variables m p kind N = padding_variables m q kind N := by
  obtain ⟨hs, hy, hc, hi, -⟩ := hm p q h
  unfold padding_variables
  dsimp only
  simp only [padding_scaling_factor_congr p q h kind N, hs, hy, hc, hi]

theorem padding_block_congr (m : Model) (hm : m.Respects) (p q : Dict)
    (h : dict_eqv p q) (kind : String) (N : ℕ) :
    padding_block m p kind N = padding_block m q kind N := by
  unfold padding_block
  rw [padding_variables_congr m hm p q h kind N]

theorem response_scaling_factor_congr (p q : Dict) (h : dict_eqv p q)
    (kind : String) (N T : ℕ) :
    response_scaling_factor p kind N T = response_scaling_factor q kind N T := by
  unfold response_scaling_factor
  rw [getItem_congr p q h "g", getItem_congr p q h "n",
    padding_scaling_factor_congr p q h kind N]

theorem response_variables_fst_congr (m : Model) (hm : m.Respects)
    (p q imp : Dict) (h : dict_eqv p q) (kind : String) (N T : ℕ) :
    (response_variables m p imp kind N T).1 =
      (response_variables m q imp kind N T).1 := by
  have h' := dict_eqv_update p q imp h
  obtain ⟨hs0, -, -, -, -⟩ := hm p q h
  obtain ⟨-, hy, hc, hi, hsol⟩ :=
    hm (dict_update p imp) (dict_update q imp) h'
  have hyf : m.evaluate_intensive_output (dict_update p imp) =
      m.evaluate_intensive_output (dict_update q imp) := funext hy
  have hcf : m.evaluate_consumption (dict_update p imp) =
      m.evaluate_consumption (dict_update q imp) := funext hc
  have hif : m.evaluate_actual_investment (dict_update p imp) =
      m.evaluate_actual_investment (dict_update q imp) := funext hi
  unfold response_variables
  dsimp only
  simp only [hs0, hsol, response_scaling_factor_congr _ _ h' kind N T,
    hyf, hcf, hif]
  cases hres : m.ivp_solve (dict_update q imp) 0 (m.steady_state q) 1 T with
  | error e => simp
  | ok soln =>
    cases hr : response_scaling_factor (dict_update q imp) kind N T with
    | error e => simp
    | ok factor =>
      by_cases hl : soln.length = T + 1
      · simp [hl]
      · simp [hl]

theorem response_block_fst_congr (m : Model) (hm : m.Respects)
    (p q imp : Dict) (h : dict_eqv p q) (kind : String) (N T : ℕ) :
    (response_block m p imp kind N T).1 =
      (response_block m q imp kind N T).1 := by
  have h1 := response_variables_fst_congr m hm p q imp h kind N T
  unfold response_block
  cases hp : response_variables m p imp kind N T with
  | mk rv pd =>
    cases hq : response_variables m q imp kind N T with
    | mk rv2 pd2 =>
      rw [hp, hq] at h1
      simp only at h1
      subst h1
      cases rv with
      | error e => simp
      | ok vars => simp

theorem impulse_response_fst_congr (m : Model) (hm : m.Respects)
    (p q imp : Dict) (h : dict_eqv p q) (kind : String) (N T : ℕ) :
    (impulse_response m p imp kind N T).1 =
      (impulse_response m q imp kind N T).1 := by
  have h1 := response_block_fst_congr m hm p q imp h kind N T
  unfold impulse_response
  rw [padding_block_congr m hm p q h kind N]
  cases hpb : padding_block m q kind N with
  | error e => simp
  | ok padRows =>
    cases hp : response_block m p imp kind N T with
    | mk r pd =>
      cases hq : response_block m q imp kind N T with
      | mk r2 pd2 =>
        rw [hp, hq] at h1
        simp only at h1
        subst h1
        cases r with
        | error e => simp
        | ok respRows => simp

end Solow

namespace Solow

/-- C9: two consecutive invocations of `impulse_response` with identical
impulse and kind return identical tables: a successful call restores the
params key for key (so the model is "restored between the calls"), and on
those restored params a second call — with the injected steady-state
solver, evaluation functions and integrator deterministic functions of the
params, read key by key (`Model.Respects`) — returns the same table. -/
theorem build_deterministic (m : Model) (p p₁ imp : Dict) (kind : String)
    (N T : ℕ) (tbl : List Row)
    (hm : Model.Respects m)
    (hvalid : ∀ k, (dict_lookup imp k).isSome → (dict_lookup p k).isSome)
    (h1 : impulse_response m p imp kind N T = (Except.ok tbl, p₁)) :
    dict_eqv p₁ p ∧
    (impulse_response m p₁ imp kind N T).1 = Except.ok tbl := by
  have hp1 : p₁ = dict_update (dict_update p imp) p :=
    impulse_response_snd_of_ok m p imp kind N T tbl p₁ h1
  have heq : dict_eqv p₁ p := by
    rw [hp1]
    exact dict_restore_eqv p imp hvalid
  refine ⟨heq, ?_⟩
  rw [impulse_response_fst_congr m hm p₁ p imp heq kind N T, h1]

end Solow

namespace Solow

/-- Witness for C9: a successful build of `okModel` on `exParams` with
impulse `{g: 2}` under `per_capita` restores the params key for key, and a
second build on the restored params returns the identical table. -/
theorem build_deterministic_witness :
    okModel.Respects ∧
    (∀ k, (dict_lookup [("g", (2 : ℝ))] k).isSome →
      (dict_lookup exParams k).isSome) ∧
    impulse_response okModel exParams [("g", 2)] "per_capita" 10 100 =
      (Except.ok (exPadRows ++ response_rows okModel
        (dict_update exParams [("g", 2)]) exSoln exRf 100),
       dict_update (dict_update exParams [("g", 2)]) exParams) ∧
    (dict_eqv (dict_update (dict_update exParams [("g", 2)]) exParams)
        exParams ∧
     (impulse_response okModel
        (dict_update (dict_update exParams [("g", 2)]) exParams)
        [("g", 2)] "per_capita" 10 100).1 =
       Except.ok (exPadRows ++ response_rows okModel
        (dict_update exParams [("g", 2)]) exSoln exRf 100)) := by
  have hm : okModel.Respects := fun p q h =>
    ⟨rfl, fun k => rfl, fun k => rfl, fun k => rfl, fun t0 y0 hh T => rfl⟩
  have hvalid : ∀ k, (dict_lookup [("g", (2 : ℝ))] k).isSome →
      (dict_lookup exParams k).isSome := by
    intro k hk
    by_cases hkg : k = "g"
    · subst hkg; rfl
    · simp [dict_lookup, List.lookup, beq_false_of_ne hkg] at hk
  have hpad : padding_block okModel exParams "per_capita" 10 =
      Except.ok exPadRows := by
    rw [exPadRows, padding_block_of_factor okModel exParams "per_capita" 10 _
      (padding_scaling_factor_per_capita exParams 1 1 1 0 10 rfl rfl rfl rfl)]
    rfl
  have hrf : response_scaling_factor (dict_update exParams [("g", 2)])
      "per_capita" 10 100 = Except.ok exRf := by
    rw [exRf, response_scaling_factor_per_capita
      (dict_update exParams [("g", 2)]) 1 1 2 0 10 100 (by norm_num)
      rfl rfl rfl rfl]
    rfl
  have h1 := impulse_response_ok okModel exParams [("g", 2)] "per_capita"
    10 100 exPadRows exSoln exRf hpad rfl (by simp [exSoln]) hrf
  exact ⟨hm, hvalid, h1,
    build_deterministic okModel exParams
      (dict_update (dict_update exParams [("g", 2)]) exParams) [("g", 2)]
      "per_capita" 10 100
      (exPadRows ++ response_rows okModel
        (dict_update exParams [("g", 2)]) exSoln exRf 100)
      hm hvalid h1⟩

end Solow
